import Mathlib

/-!
Shallow embedding of the payments-engine ledger core
(`src/account.rs`, `src/transaction_manager.rs`, `src/record.rs`,
`src/amount.rs`, `src/error.rs`).

Modelling conventions:
* `rust_decimal::Decimal` is modelled as an exact rational number (`ℚ`)
  bounded in magnitude by `DMAX = 2^96 - 1` (the decimal's 96-bit
  mantissa at scale 0); `checked_add` / `checked_sub` succeed exactly
  when the exact result stays within that bound, and fail (return
  `none`) otherwise.  `Amount` is a newtype over `Decimal` in the
  source and is flattened to `ℚ` here; `is_sign_negative` becomes
  `< 0`.
* `u16` / `u32` identifiers are modelled as `Nat` (they are only used
  as map keys and error payloads, never arithmetically).
* Rust `&mut self` methods returning `Result<(), Errors>` become pure
  functions `Account → ℚ → Except Errors Unit × Account`: the second
  component is the state after the call, including any partial
  mutation that happened before an error was returned, exactly as the
  in-place Rust mutations leave it.
* The two `HashMap`s of `TransactionManager` become functions
  `Nat → Option _`, updated pointwise; `entry(..).or_insert_with`
  becomes `getD` plus a write-back.
-/

/-- Maximum magnitude representable by `rust_decimal::Decimal`
(mantissa `2^96 - 1` at scale 0). -/
def DMAX : ℚ := 79228162514264337593543950335

/-- `Decimal::checked_add`: exact sum if it stays representable. -/
def checked_add (x y : ℚ) : Option ℚ :=
  if |x + y| ≤ DMAX then some (x + y) else none

/-- `Decimal::checked_sub`: exact difference if it stays representable. -/
def checked_sub (x y : ℚ) : Option ℚ :=
  if |x - y| ≤ DMAX then some (x - y) else none

/-- `record.rs`: `OperationType`. -/
inductive OperationType where
  | Chargeback
  | Dispute
  | Deposit
  | Resolve
  | Withdrawal
deriving DecidableEq, Repr

/-- `error.rs`: `Errors` (the misspelling `InsuficientFunds` is the
source's own). -/
inductive Errors where
  | AccountLocked (client : Nat)
  | InsuficientFunds (client : Nat)
  | FundsOverflow (client : Nat)
  | MissingAmount
  | NegativeAmount
  | ResolveOnNonDisputeOperation
  | TransactionIdAlreadyUsed (tx : Nat) (op : OperationType)
deriving DecidableEq, Repr

/-- `account.rs`: `Account`.  The two-variant `AccountState` enum is
modelled as the `Bool` `locked` (`true` = `Locked`). -/
structure Account where
  client_id : Nat
  available : ℚ
  held : ℚ
  locked : Bool
deriving DecidableEq, Repr

/-- `Account::new`: zero funds, unlocked. -/
def Account.new (client_id : Nat) : Account :=
  { client_id := client_id, available := 0, held := 0, locked := false }

/-- `Account::deposit`. -/
def Account.deposit (a : Account) (amount : ℚ) : Except Errors Unit × Account :=
  if a.locked then (Except.error (Errors.AccountLocked a.client_id), a)
  else
    match checked_add a.available amount with
    | none => (Except.error (Errors.FundsOverflow a.client_id), a)
    | some v => (Except.ok (), { a with available := v })

/-- `Account::withdrawal`. -/
def Account.withdrawal (a : Account) (amount : ℚ) : Except Errors Unit × Account :=
  if a.locked then (Except.error (Errors.AccountLocked a.client_id), a)
  else if a.available ≥ amount then
    match checked_sub a.available amount with
    | none => (Except.error (Errors.FundsOverflow a.client_id), a)
    | some v => (Except.ok (), { a with available := v })
  else (Except.error (Errors.InsuficientFunds a.client_id), a)

/-- `Account::dispute`: mutates `available` first; a failure of the
second (`held`) leg leaves the first mutation in place, as in the
source. -/
def Account.dispute (a : Account) (amount : ℚ) : Except Errors Unit × Account :=
  if a.available ≥ amount then
    match checked_sub a.available amount with
    | none => (Except.error (Errors.InsuficientFunds a.client_id), a)
    | some v =>
      match checked_add a.held amount with
      | none =>
        (Except.error (Errors.FundsOverflow a.client_id), { a with available := v })
      | some h => (Except.ok (), { a with available := v, held := h })
  else (Except.error (Errors.InsuficientFunds a.client_id), a)

/-- `Account::resolve`: mutates `available` first; a failure of the
second (`held`) leg leaves the first mutation in place. -/
def Account.resolve (a : Account) (amount : ℚ) : Except Errors Unit × Account :=
  match checked_add a.available amount with
  | none => (Except.error (Errors.FundsOverflow a.client_id), a)
  | some v =>
    match checked_sub a.held amount with
    | none =>
      (Except.error (Errors.FundsOverflow a.client_id), { a with available := v })
    | some h => (Except.ok (), { a with available := v, held := h })

/-- `Account::chargeback`: checked-subtract from `held`, then lock
(`lock()` never fails). -/
def Account.chargeback (a : Account) (amount : ℚ) : Except Errors Unit × Account :=
  match checked_sub a.held amount with
  | none => (Except.error (Errors.FundsOverflow a.client_id), a)
  | some h => (Except.ok (), { a with held := h, locked := true })

/-- `Account::chargeback_withdrawal`: checked-add to `available`,
never locks. -/
def Account.chargeback_withdrawal (a : Account) (amount : ℚ) :
    Except Errors Unit × Account :=
  match checked_add a.available amount with
  | none => (Except.error (Errors.FundsOverflow a.client_id), a)
  | some v => (Except.ok (), { a with available := v })

/-- `record.rs`: input `Record` (`r#type` is `type` here). -/
structure Record where
  type : OperationType
  client : Nat
  tx : Nat
  amount : Option ℚ
deriving DecidableEq, Repr

/-- `Record::new` (test helper constructor in the source). -/
def Record.new (type : OperationType) (client tx : Nat) (amount : Option ℚ) : Record :=
  { type := type, client := client, tx := tx, amount := amount }

/-- `transaction_manager.rs`: `TransactionRecord` (registry entry). -/
structure TransactionRecord where
  operation_type : OperationType
  amount : Option ℚ
  under_dispute : Bool
  already_disputed : Bool
deriving DecidableEq, Repr

/-- `TransactionRecord::new`: dispute flags start false. -/
def TransactionRecord.new (operation_type : OperationType) (amount : Option ℚ) :
    TransactionRecord :=
  { operation_type := operation_type, amount := amount,
    under_dispute := false, already_disputed := false }

/-- `transaction_manager.rs`: `TransactionManager`; the two `HashMap`s
are modelled as functions to `Option`. -/
structure TransactionManager where
  accounts : Nat → Option Account
  transactions : Nat → Option TransactionRecord

/-- `TransactionManager::new`: both maps empty. -/
def TransactionManager.new : TransactionManager :=
  { accounts := fun _ => none, transactions := fun _ => none }

/-- Pointwise insert into the accounts map. -/
def TransactionManager.set_account (m : TransactionManager) (c : Nat) (a : Account) :
    TransactionManager :=
  { m with accounts := fun k => if k = c then some a else m.accounts k }

/-- Pointwise insert into the transactions map. -/
def TransactionManager.set_transaction (m : TransactionManager) (tx : Nat)
    (t : TransactionRecord) : TransactionManager :=
  { m with transactions := fun k => if k = tx then some t else m.transactions k }

/-- `get_account` (create-if-absent) followed by an `Account` method:
the post-call account is stored back even when the call failed,
matching Rust's in-place mutation through `&mut`. -/
def TransactionManager.with_account (m : TransactionManager) (c : Nat)
    (f : Account → Except Errors Unit × Account) :
    Except Errors Unit × TransactionManager :=
  let p := f ((m.accounts c).getD (Account.new c))
  (p.1, m.set_account c p.2)

/-- `TransactionManager::parse_entry`, branch for branch from the
source: Deposit/Withdrawal validate (tx unused, amount present,
amount non-negative), then insert the registry entry, then run the
account operation; Chargeback clears `under_dispute` and routes by
the entry's recorded operation type; Dispute sets both flags before
calling `Account::dispute`; Resolve demands an open dispute when the
entry exists. -/
def TransactionManager.parse_entry (m : TransactionManager) (record : Record) :
    Except Errors Unit × TransactionManager :=
  match record.type with
  | OperationType.Deposit =>
    if (m.transactions record.tx).isSome then
      (Except.error (Errors.TransactionIdAlreadyUsed record.tx record.type), m)
    else
      match record.amount with
      | some amount =>
        if amount < 0 then (Except.error Errors.NegativeAmount, m)
        else
          (m.set_transaction record.tx
              (TransactionRecord.new record.type record.amount)).with_account
            record.client (fun a => a.deposit amount)
      | none => (Except.error Errors.MissingAmount, m)
  | OperationType.Withdrawal =>
    if (m.transactions record.tx).isSome then
      (Except.error (Errors.TransactionIdAlreadyUsed record.tx record.type), m)
    else
      match record.amount with
      | some amount =>
        if amount < 0 then (Except.error Errors.NegativeAmount, m)
        else
          (m.set_transaction record.tx
              (TransactionRecord.new record.type record.amount)).with_account
            record.client (fun a => a.withdrawal amount)
      | none => (Except.error Errors.MissingAmount, m)
  | OperationType.Chargeback =>
    match m.transactions record.tx with
    | some t =>
      if t.under_dispute then
        match t.amount with
        | some amount =>
          let m1 := m.set_transaction record.tx { t with under_dispute := false }
          if t.operation_type = OperationType.Deposit then
            m1.with_account record.client (fun a => a.chargeback amount)
          else if t.operation_type = OperationType.Withdrawal then
            m1.with_account record.client (fun a => a.chargeback_withdrawal amount)
          else (Except.ok (), m1)
        | none => (Except.ok (), m)
      else (Except.ok (), m)
    | none => (Except.ok (), m)
  | OperationType.Dispute =>
    match m.transactions record.tx with
    | some t =>
      if t.already_disputed then (Except.ok (), m)
      else
        let m1 := m.set_transaction record.tx
          { t with under_dispute := true, already_disputed := true }
        if t.operation_type = OperationType.Deposit then
          match t.amount with
          | some amount => m1.with_account record.client (fun a => a.dispute amount)
          | none => (Except.ok (), m1)
        else (Except.ok (), m1)
    | none => (Except.ok (), m)
  | OperationType.Resolve =>
    match m.transactions record.tx with
    | some t =>
      if t.under_dispute then
        let m1 := m.set_transaction record.tx { t with under_dispute := false }
        match t.amount with
        | some amount => m1.with_account record.client (fun a => a.resolve amount)
        | none => (Except.ok (), m1)
      else (Except.error Errors.ResolveOnNonDisputeOperation, m)
    | none => (Except.ok (), m)

/-- Feed an ordered sequence of records, one at a time, discarding
per-record errors (processing continues after an error, as the
operator loop does). -/
def TransactionManager.runFrom (m : TransactionManager) (records : List Record) :
    TransactionManager :=
  records.foldl (fun acc r => (acc.parse_entry r).2) m

/-- Run a record sequence against a fresh manager. -/
def run (records : List Record) : TransactionManager :=
  TransactionManager.new.runFrom records

/-! ### Basic lemmas about the map combinators -/

theorem with_account_fst (m : TransactionManager) (c : Nat)
    (f : Account → Except Errors Unit × Account) :
    (m.with_account c f).1 = (f ((m.accounts c).getD (Account.new c))).1 := rfl

theorem with_account_transactions (m : TransactionManager) (c : Nat)
    (f : Account → Except Errors Unit × Account) :
    (m.with_account c f).2.transactions = m.transactions := rfl

theorem with_account_accounts (m : TransactionManager) (c k : Nat)
    (f : Account → Except Errors Unit × Account) :
    (m.with_account c f).2.accounts k =
      if k = c then some (f ((m.accounts c).getD (Account.new c))).2
      else m.accounts k := rfl

theorem set_transaction_lookup (m : TransactionManager) (k tx : Nat)
    (t : TransactionRecord) :
    (m.set_transaction k t).transactions tx =
      if tx = k then some t else m.transactions tx := rfl

theorem set_transaction_accounts (m : TransactionManager) (k : Nat)
    (t : TransactionRecord) :
    (m.set_transaction k t).accounts = m.accounts := rfl

/-! ### Lemmas about the checked decimal arithmetic -/

theorem checked_add_some (x y v : ℚ) (h : checked_add x y = some v) : v = x + y := by
  unfold checked_add at h
  split at h
  · exact (Option.some.injEq _ _ ▸ h).symm
  · exact absurd h (by simp)

theorem checked_sub_some (x y v : ℚ) (h : checked_sub x y = some v) : v = x - y := by
  unfold checked_sub at h
  split at h
  · exact (Option.some.injEq _ _ ▸ h).symm
  · exact absurd h (by simp)

/-! ### Account-level characterization lemmas -/

theorem deposit_locked (a : Account) (x : ℚ) (h : a.locked = true) :
    a.deposit x = (Except.error (Errors.AccountLocked a.client_id), a) := by
  simp [Account.deposit, h]

theorem withdrawal_locked (a : Account) (x : ℚ) (h : a.locked = true) :
    a.withdrawal x = (Except.error (Errors.AccountLocked a.client_id), a) := by
  simp [Account.withdrawal, h]

theorem deposit_error_state (a : Account) (x : ℚ) (e : Errors) (b : Account)
    (h : a.deposit x = (Except.error e, b)) : b = a := by
  unfold Account.deposit at h
  split at h
  · rw [Prod.mk.injEq] at h; exact h.2.symm
  · cases hc : checked_add a.available x
    · rw [hc] at h; rw [Prod.mk.injEq] at h; exact h.2.symm
    · rw [hc] at h; simp at h

theorem withdrawal_error_state (a : Account) (x : ℚ) (e : Errors) (b : Account)
    (h : a.withdrawal x = (Except.error e, b)) : b = a := by
  unfold Account.withdrawal at h
  split at h
  · rw [Prod.mk.injEq] at h; exact h.2.symm
  · split at h
    · cases hc : checked_sub a.available x
      · rw [hc] at h; rw [Prod.mk.injEq] at h; exact h.2.symm
      · rw [hc] at h; simp at h
    · rw [Prod.mk.injEq] at h; exact h.2.symm

theorem chargeback_error_state (a : Account) (x : ℚ) (e : Errors) (b : Account)
    (h : a.chargeback x = (Except.error e, b)) : b = a := by
  unfold Account.chargeback at h
  cases hc : checked_sub a.held x
  · rw [hc] at h; rw [Prod.mk.injEq] at h; exact h.2.symm
  · rw [hc] at h; simp at h

theorem chargeback_withdrawal_error_state (a : Account) (x : ℚ) (e : Errors)
    (b : Account) (h : a.chargeback_withdrawal x = (Except.error e, b)) : b = a := by
  unfold Account.chargeback_withdrawal at h
  cases hc : checked_add a.available x
  · rw [hc] at h; rw [Prod.mk.injEq] at h; exact h.2.symm
  · rw [hc] at h; simp at h

theorem deposit_ok_state (a : Account) (x : ℚ) (b : Account)
    (h : a.deposit x = (Except.ok (), b)) :
    b = { a with available := a.available + x } ∧ a.locked = false := by
  unfold Account.deposit at h
  split at h
  · simp at h
  · cases hc : checked_add a.available x with
    | none => rw [hc] at h; simp at h
    | some v =>
      rw [hc] at h
      rw [Prod.mk.injEq] at h
      refine ⟨?_, by simp_all⟩
      rw [← h.2, checked_add_some _ _ _ hc]

theorem withdrawal_ok_state (a : Account) (x : ℚ) (b : Account)
    (h : a.withdrawal x = (Except.ok (), b)) :
    b = { a with available := a.available - x } ∧ x ≤ a.available ∧
      a.locked = false := by
  unfold Account.withdrawal at h
  split at h
  · simp at h
  · split at h
    · cases hc : checked_sub a.available x with
      | none => rw [hc] at h; simp at h
      | some v =>
        rw [hc] at h
        rw [Prod.mk.injEq] at h
        refine ⟨?_, by assumption, by simp_all⟩
        rw [← h.2, checked_sub_some _ _ _ hc]
    · simp at h

theorem dispute_ok_state (a : Account) (x : ℚ) (b : Account)
    (h : a.dispute x = (Except.ok (), b)) :
    b = { a with available := a.available - x, held := a.held + x } ∧
      x ≤ a.available := by
  unfold Account.dispute at h
  split at h
  · cases hc : checked_sub a.available x with
    | none => rw [hc] at h; simp at h
    | some v =>
      rw [hc] at h
      cases hc2 : checked_add a.held x with
      | none => rw [hc2] at h; simp at h
      | some w =>
        rw [hc2] at h
        rw [Prod.mk.injEq] at h
        refine ⟨?_, by assumption⟩
        rw [← h.2, checked_sub_some _ _ _ hc, checked_add_some _ _ _ hc2]
  · simp at h

theorem resolve_ok_state (a : Account) (x : ℚ) (b : Account)
    (h : a.resolve x = (Except.ok (), b)) :
    b = { a with available := a.available + x, held := a.held - x } := by
  unfold Account.resolve at h
  cases hc : checked_add a.available x with
  | none => rw [hc] at h; simp at h
  | some v =>
    rw [hc] at h
    cases hc2 : checked_sub a.held x with
    | none => rw [hc2] at h; simp at h
    | some w =>
      rw [hc2] at h
      rw [Prod.mk.injEq] at h
      rw [← h.2, checked_add_some _ _ _ hc, checked_sub_some _ _ _ hc2]

theorem chargeback_ok_state (a : Account) (x : ℚ) (b : Account)
    (h : a.chargeback x = (Except.ok (), b)) :
    b = { a with held := a.held - x, locked := true } := by
  unfold Account.chargeback at h
  cases hc : checked_sub a.held x with
  | none => rw [hc] at h; simp at h
  | some v =>
    rw [hc] at h
    rw [Prod.mk.injEq] at h
    rw [← h.2, checked_sub_some _ _ _ hc]

theorem chargeback_withdrawal_ok_state (a : Account) (x : ℚ) (b : Account)
    (h : a.chargeback_withdrawal x = (Except.ok (), b)) :
    b = { a with available := a.available + x } := by
  unfold Account.chargeback_withdrawal at h
  cases hc : checked_add a.available x with
  | none => rw [hc] at h; simp at h
  | some v =>
    rw [hc] at h
    rw [Prod.mk.injEq] at h
    rw [← h.2, checked_add_some _ _ _ hc]

theorem dispute_error_state (a : Account) (x : ℚ) (e : Errors) (b : Account)
    (h : a.dispute x = (Except.error e, b)) :
    b = a ∨ (b = { a with available := a.available - x } ∧ x ≤ a.available) := by
  unfold Account.dispute at h
  split at h
  · cases hc : checked_sub a.available x
    · rw [hc] at h; rw [Prod.mk.injEq] at h; exact Or.inl h.2.symm
    · rw [hc] at h
      cases hc2 : checked_add a.held x
      · rw [hc2] at h; rw [Prod.mk.injEq] at h
        refine Or.inr ⟨?_, by assumption⟩
        rw [← h.2, checked_sub_some _ _ _ hc]
      · rw [hc2] at h; simp at h
  · rw [Prod.mk.injEq] at h; exact Or.inl h.2.symm

theorem resolve_error_state (a : Account) (x : ℚ) (e : Errors) (b : Account)
    (h : a.resolve x = (Except.error e, b)) :
    b = a ∨ b = { a with available := a.available + x } := by
  unfold Account.resolve at h
  cases hc : checked_add a.available x
  · rw [hc] at h; rw [Prod.mk.injEq] at h; exact Or.inl h.2.symm
  · rw [hc] at h
    cases hc2 : checked_sub a.held x
    · rw [hc2] at h; rw [Prod.mk.injEq] at h
      refine Or.inr ?_
      rw [← h.2, checked_add_some _ _ _ hc]
    · rw [hc2] at h; simp at h

/-! ### The `locked` field across the Account operations -/

theorem deposit_locked_field (a : Account) (x : ℚ) :
    ((a.deposit x).2).locked = a.locked := by
  unfold Account.deposit
  split
  · rfl
  · cases hc : checked_add a.available x <;> rfl

theorem withdrawal_locked_field (a : Account) (x : ℚ) :
    ((a.withdrawal x).2).locked = a.locked := by
  unfold Account.withdrawal
  split
  · rfl
  · split
    · cases hc : checked_sub a.available x <;> rfl
    · rfl

theorem dispute_locked_field (a : Account) (x : ℚ) :
    ((a.dispute x).2).locked = a.locked := by
  unfold Account.dispute
  split
  · cases hc : checked_sub a.available x
    · rfl
    · cases hc2 : checked_add a.held x <;> rfl
  · rfl

theorem resolve_locked_field (a : Account) (x : ℚ) :
    ((a.resolve x).2).locked = a.locked := by
  unfold Account.resolve
  cases hc : checked_add a.available x
  · rfl
  · cases hc2 : checked_sub a.held x <;> rfl

theorem chargeback_withdrawal_locked_field (a : Account) (x : ℚ) :
    ((a.chargeback_withdrawal x).2).locked = a.locked := by
  unfold Account.chargeback_withdrawal
  cases hc : checked_add a.available x <;> rfl

theorem chargeback_locked_mono (a : Account) (x : ℚ) (h : a.locked = true) :
    ((a.chargeback x).2).locked = true := by
  unfold Account.chargeback
  cases hc : checked_sub a.held x
  · exact h
  · rfl

/-! ### Nonnegativity of `available` across the Account operations -/

theorem deposit_avail_nonneg (a : Account) (x : ℚ) (h0 : 0 ≤ a.available)
    (hx : 0 ≤ x) : 0 ≤ ((a.deposit x).2).available := by
  cases hr : a.deposit x with
  | mk r b =>
    cases r with
    | error e => rw [deposit_error_state a x e b hr]; exact h0
    | ok u =>
      cases u
      rw [(deposit_ok_state a x b hr).1]
      exact add_nonneg h0 hx

theorem withdrawal_avail_nonneg (a : Account) (x : ℚ) (h0 : 0 ≤ a.available) :
    0 ≤ ((a.withdrawal x).2).available := by
  cases hr : a.withdrawal x with
  | mk r b =>
    cases r with
    | error e => rw [withdrawal_error_state a x e b hr]; exact h0
    | ok u =>
      cases u
      obtain ⟨hb, hle, -⟩ := withdrawal_ok_state a x b hr
      rw [hb]
      exact sub_nonneg.mpr hle

theorem dispute_avail_nonneg (a : Account) (x : ℚ) (h0 : 0 ≤ a.available) :
    0 ≤ ((a.dispute x).2).available := by
  cases hr : a.dispute x with
  | mk r b =>
    cases r with
    | error e =>
      rcases dispute_error_state a x e b hr with hb | ⟨hb, hle⟩
      · rw [hb]; exact h0
      · rw [hb]; exact sub_nonneg.mpr hle
    | ok u =>
      cases u
      obtain ⟨hb, hle⟩ := dispute_ok_state a x b hr
      rw [hb]
      exact sub_nonneg.mpr hle

theorem resolve_avail_nonneg (a : Account) (x : ℚ) (h0 : 0 ≤ a.available)
    (hx : 0 ≤ x) : 0 ≤ ((a.resolve x).2).available := by
  cases hr : a.resolve x with
  | mk r b =>
    cases r with
    | error e =>
      rcases resolve_error_state a x e b hr with hb | hb
      · rw [hb]; exact h0
      · rw [hb]; exact add_nonneg h0 hx
    | ok u =>
      cases u
      rw [resolve_ok_state a x b hr]
      exact add_nonneg h0 hx

theorem chargeback_available_eq (a : Account) (x : ℚ) :
    ((a.chargeback x).2).available = a.available := by
  unfold Account.chargeback
  cases hc : checked_sub a.held x <;> rfl

theorem chargeback_withdrawal_avail_nonneg (a : Account) (x : ℚ)
    (h0 : 0 ≤ a.available) (hx : 0 ≤ x) :
    0 ≤ ((a.chargeback_withdrawal x).2).available := by
  cases hr : a.chargeback_withdrawal x with
  | mk r b =>
    cases r with
    | error e => rw [chargeback_withdrawal_error_state a x e b hr]; exact h0
    | ok u =>
      cases u
      rw [chargeback_withdrawal_ok_state a x b hr]
      exact add_nonneg h0 hx

/-! ### Branch-level characterization of `parse_entry` -/

theorem parse_dispute_missing (m : TransactionManager) (r : Record)
    (ht : r.type = OperationType.Dispute) (hm : m.transactions r.tx = none) :
    m.parse_entry r = (Except.ok (), m) := by
  obtain ⟨ty, c, tx, am⟩ := r
  cases ht
  simp only [TransactionManager.parse_entry] at *
  rw [hm]

theorem parse_dispute_latched (m : TransactionManager) (r : Record)
    (t : TransactionRecord) (ht : r.type = OperationType.Dispute)
    (hm : m.transactions r.tx = some t) (hd : t.already_disputed = true) :
    m.parse_entry r = (Except.ok (), m) := by
  obtain ⟨ty, c, tx, am⟩ := r
  cases ht
  simp only [TransactionManager.parse_entry] at *
  rw [hm]
  simp [hd]

theorem parse_chargeback_missing (m : TransactionManager) (r : Record)
    (ht : r.type = OperationType.Chargeback) (hm : m.transactions r.tx = none) :
    m.parse_entry r = (Except.ok (), m) := by
  obtain ⟨ty, c, tx, am⟩ := r
  cases ht
  simp only [TransactionManager.parse_entry] at *
  rw [hm]

theorem parse_chargeback_not_disputed (m : TransactionManager) (r : Record)
    (t : TransactionRecord) (ht : r.type = OperationType.Chargeback)
    (hm : m.transactions r.tx = some t) (hd : t.under_dispute = false) :
    m.parse_entry r = (Except.ok (), m) := by
  obtain ⟨ty, c, tx, am⟩ := r
  cases ht
  simp only [TransactionManager.parse_entry] at *
  rw [hm]
  simp [hd]

theorem parse_resolve_missing (m : TransactionManager) (r : Record)
    (ht : r.type = OperationType.Resolve) (hm : m.transactions r.tx = none) :
    m.parse_entry r = (Except.ok (), m) := by
  obtain ⟨ty, c, tx, am⟩ := r
  cases ht
  simp only [TransactionManager.parse_entry] at *
  rw [hm]

theorem parse_resolve_not_disputed (m : TransactionManager) (r : Record)
    (t : TransactionRecord) (ht : r.type = OperationType.Resolve)
    (hm : m.transactions r.tx = some t) (hd : t.under_dispute = false) :
    m.parse_entry r = (Except.error Errors.ResolveOnNonDisputeOperation, m) := by
  obtain ⟨ty, c, tx, am⟩ := r
  cases ht
  simp only [TransactionManager.parse_entry] at *
  rw [hm]
  simp [hd]

theorem parse_dw_duplicate (m : TransactionManager) (r : Record)
    (ht : r.type = OperationType.Deposit ∨ r.type = OperationType.Withdrawal)
    (hm : (m.transactions r.tx).isSome = true) :
    m.parse_entry r =
      (Except.error (Errors.TransactionIdAlreadyUsed r.tx r.type), m) := by
  obtain ⟨ty, c, tx, am⟩ := r
  rcases ht with ht | ht <;> cases ht <;>
    simp only [TransactionManager.parse_entry] at * <;> simp [hm]

theorem parse_dw_missing_amount (m : TransactionManager) (r : Record)
    (ht : r.type = OperationType.Deposit ∨ r.type = OperationType.Withdrawal)
    (hm : m.transactions r.tx = none) (ha : r.amount = none) :
    m.parse_entry r = (Except.error Errors.MissingAmount, m) := by
  obtain ⟨ty, c, tx, am⟩ := r
  cases ha
  rcases ht with ht | ht <;> cases ht <;>
    simp only [TransactionManager.parse_entry] at * <;> simp [hm]

theorem parse_dw_negative_amount (m : TransactionManager) (r : Record) (x : ℚ)
    (ht : r.type = OperationType.Deposit ∨ r.type = OperationType.Withdrawal)
    (hm : m.transactions r.tx = none) (ha : r.amount = some x) (hx : x < 0) :
    m.parse_entry r = (Except.error Errors.NegativeAmount, m) := by
  obtain ⟨ty, c, tx, am⟩ := r
  cases ha
  rcases ht with ht | ht <;> cases ht <;>
    simp only [TransactionManager.parse_entry] at * <;> simp [hm, hx]

theorem parse_deposit_fresh (m : TransactionManager) (r : Record) (x : ℚ)
    (ht : r.type = OperationType.Deposit) (hm : m.transactions r.tx = none)
    (ha : r.amount = some x) (hx : ¬x < 0) :
    m.parse_entry r =
      (m.set_transaction r.tx
          (TransactionRecord.new OperationType.Deposit (some x))).with_account
        r.client (fun a => a.deposit x) := by
  obtain ⟨ty, c, tx, am⟩ := r
  cases ht
  cases ha
  simp only [TransactionManager.parse_entry] at *
  simp [hm, hx]

theorem parse_withdrawal_fresh (m : TransactionManager) (r : Record) (x : ℚ)
    (ht : r.type = OperationType.Withdrawal) (hm : m.transactions r.tx = none)
    (ha : r.amount = some x) (hx : ¬x < 0) :
    m.parse_entry r =
      (m.set_transaction r.tx
          (TransactionRecord.new OperationType.Withdrawal (some x))).with_account
        r.client (fun a => a.withdrawal x) := by
  obtain ⟨ty, c, tx, am⟩ := r
  cases ht
  cases ha
  simp only [TransactionManager.parse_entry] at *
  simp [hm, hx]

theorem parse_dispute_fresh_deposit (m : TransactionManager) (r : Record)
    (t : TransactionRecord) (x : ℚ) (ht : r.type = OperationType.Dispute)
    (hm : m.transactions r.tx = some t) (hd : t.already_disputed = false)
    (hop : t.operation_type = OperationType.Deposit) (ha : t.amount = some x) :
    m.parse_entry r =
      (m.set_transaction r.tx
          { t with under_dispute := true, already_disputed := true }).with_account
        r.client (fun a => a.dispute x) := by
  obtain ⟨ty, c, tx, am⟩ := r
  cases ht
  simp only [TransactionManager.parse_entry] at *
  rw [hm]
  simp [hd, hop, ha]

theorem parse_dispute_fresh_nondeposit (m : TransactionManager) (r : Record)
    (t : TransactionRecord) (ht : r.type = OperationType.Dispute)
    (hm : m.transactions r.tx = some t) (hd : t.already_disputed = false)
    (hop : t.operation_type ≠ OperationType.Deposit) :
    m.parse_entry r =
      (Except.ok (),
        m.set_transaction r.tx
          { t with under_dispute := true, already_disputed := true }) := by
  obtain ⟨ty, c, tx, am⟩ := r
  cases ht
  simp only [TransactionManager.parse_entry] at *
  rw [hm]
  simp [hd, hop]

theorem parse_chargeback_active_deposit (m : TransactionManager) (r : Record)
    (t : TransactionRecord) (x : ℚ) (ht : r.type = OperationType.Chargeback)
    (hm : m.transactions r.tx = some t) (hd : t.under_dispute = true)
    (ha : t.amount = some x) (hop : t.operation_type = OperationType.Deposit) :
    m.parse_entry r =
      (m.set_transaction r.tx { t with under_dispute := false }).with_account
        r.client (fun a => a.chargeback x) := by
  obtain ⟨ty, c, tx, am⟩ := r
  cases ht
  simp only [TransactionManager.parse_entry] at *
  rw [hm]
  simp [hd, ha, hop]

theorem parse_chargeback_active_withdrawal (m : TransactionManager) (r : Record)
    (t : TransactionRecord) (x : ℚ) (ht : r.type = OperationType.Chargeback)
    (hm : m.transactions r.tx = some t) (hd : t.under_dispute = true)
    (ha : t.amount = some x)
    (hop : t.operation_type = OperationType.Withdrawal) :
    m.parse_entry r =
      (m.set_transaction r.tx { t with under_dispute := false }).with_account
        r.client (fun a => a.chargeback_withdrawal x) := by
  obtain ⟨ty, c, tx, am⟩ := r
  cases ht
  simp only [TransactionManager.parse_entry] at *
  rw [hm]
  simp [hd, ha, hop]

theorem parse_resolve_active (m : TransactionManager) (r : Record)
    (t : TransactionRecord) (x : ℚ) (ht : r.type = OperationType.Resolve)
    (hm : m.transactions r.tx = some t) (hd : t.under_dispute = true)
    (ha : t.amount = some x) :
    m.parse_entry r =
      (m.set_transaction r.tx { t with under_dispute := false }).with_account
        r.client (fun a => a.resolve x) := by
  obtain ⟨ty, c, tx, am⟩ := r
  cases ht
  simp only [TransactionManager.parse_entry] at *
  rw [hm]
  simp [hd, ha]

theorem parse_dispute_fresh_deposit_noamount (m : TransactionManager) (r : Record)
    (t : TransactionRecord) (ht : r.type = OperationType.Dispute)
    (hm : m.transactions r.tx = some t) (hd : t.already_disputed = false)
    (hop : t.operation_type = OperationType.Deposit) (ha : t.amount = none) :
    m.parse_entry r =
      (Except.ok (),
        m.set_transaction r.tx
          { t with under_dispute := true, already_disputed := true }) := by
  obtain ⟨ty, c, tx, am⟩ := r
  cases ht
  simp only [TransactionManager.parse_entry] at *
  rw [hm]
  simp [hd, hop, ha]

theorem parse_chargeback_active_noamount (m : TransactionManager) (r : Record)
    (t : TransactionRecord) (ht : r.type = OperationType.Chargeback)
    (hm : m.transactions r.tx = some t) (hd : t.under_dispute = true)
    (ha : t.amount = none) :
    m.parse_entry r = (Except.ok (), m) := by
  obtain ⟨ty, c, tx, am⟩ := r
  cases ht
  simp only [TransactionManager.parse_entry] at *
  rw [hm]
  simp [hd, ha]

theorem parse_chargeback_active_otherop (m : TransactionManager) (r : Record)
    (t : TransactionRecord) (x : ℚ) (ht : r.type = OperationType.Chargeback)
    (hm : m.transactions r.tx = some t) (hd : t.under_dispute = true)
    (ha : t.amount = some x) (hop1 : t.operation_type ≠ OperationType.Deposit)
    (hop2 : t.operation_type ≠ OperationType.Withdrawal) :
    m.parse_entry r =
      (Except.ok (), m.set_transaction r.tx { t with under_dispute := false }) := by
  obtain ⟨ty, c, tx, am⟩ := r
  cases ht
  simp only [TransactionManager.parse_entry] at *
  rw [hm]
  simp [hd, ha, hop1, hop2]

theorem parse_resolve_active_noamount (m : TransactionManager) (r : Record)
    (t : TransactionRecord) (ht : r.type = OperationType.Resolve)
    (hm : m.transactions r.tx = some t) (hd : t.under_dispute = true)
    (ha : t.amount = none) :
    m.parse_entry r =
      (Except.ok (), m.set_transaction r.tx { t with under_dispute := false }) := by
  obtain ⟨ty, c, tx, am⟩ := r
  cases ht
  simp only [TransactionManager.parse_entry] at *
  rw [hm]
  simp [hd, ha]

/-! ### An exhaustive shape description of `parse_entry` -/

/-- The account mutator invoked by `parse_entry` is always one of the
six `Account` operations, applied at a fixed amount. -/
def OpOf (f : Account → Except Errors Unit × Account) (x : ℚ) : Prop :=
  f = (fun a => a.deposit x) ∨ f = (fun a => a.withdrawal x) ∨
    f = (fun a => a.dispute x) ∨ f = (fun a => a.resolve x) ∨
    f = (fun a => a.chargeback x) ∨ f = (fun a => a.chargeback_withdrawal x)

/-- Every `parse_entry` call leaves the manager unchanged, or rewrites
the existing registry entry at `r.tx` (preserving its amount, its
operation type, and a set `already_disputed` latch) possibly followed
by one account operation at the entry's amount, or registers a fresh
entry at a non-negative recorded amount followed by one account
operation at that amount. -/
theorem parse_entry_shape (m : TransactionManager) (r : Record) :
    (m.parse_entry r).2 = m ∨
    (∃ t0 t', m.transactions r.tx = some t0 ∧
      t'.amount = t0.amount ∧
      t'.operation_type = t0.operation_type ∧
      (t0.already_disputed = true → t'.already_disputed = true) ∧
      ((m.parse_entry r).2 = m.set_transaction r.tx t' ∨
        (∃ f x, OpOf f x ∧ t0.amount = some x ∧
          (m.parse_entry r).2 =
            ((m.set_transaction r.tx t').with_account r.client f).2))) ∨
    (∃ x f, m.transactions r.tx = none ∧ 0 ≤ x ∧ OpOf f x ∧
      (m.parse_entry r).2 =
        ((m.set_transaction r.tx
            (TransactionRecord.new r.type (some x))).with_account r.client f).2) := by
  cases hty : r.type with
  | Deposit =>
    cases hm : m.transactions r.tx with
    | some t0 =>
      left
      rw [parse_dw_duplicate m r (Or.inl hty) (by rw [hm]; rfl)]
    | none =>
      cases ha : r.amount with
      | none => left; rw [parse_dw_missing_amount m r (Or.inl hty) hm ha]
      | some x =>
        by_cases hx : x < 0
        · left; rw [parse_dw_negative_amount m r x (Or.inl hty) hm ha hx]
        · right; right
          refine ⟨x, fun a => a.deposit x, rfl, not_lt.mp hx, Or.inl rfl, ?_⟩
          rw [parse_deposit_fresh m r x hty hm ha hx]
  | Withdrawal =>
    cases hm : m.transactions r.tx with
    | some t0 =>
      left
      rw [parse_dw_duplicate m r (Or.inr hty) (by rw [hm]; rfl)]
    | none =>
      cases ha : r.amount with
      | none => left; rw [parse_dw_missing_amount m r (Or.inr hty) hm ha]
      | some x =>
        by_cases hx : x < 0
        · left; rw [parse_dw_negative_amount m r x (Or.inr hty) hm ha hx]
        · right; right
          refine ⟨x, fun a => a.withdrawal x, rfl, not_lt.mp hx,
            Or.inr (Or.inl rfl), ?_⟩
          rw [parse_withdrawal_fresh m r x hty hm ha hx]
  | Dispute =>
    cases hm : m.transactions r.tx with
    | none => left; rw [parse_dispute_missing m r hty hm]
    | some t0 =>
      cases hd : t0.already_disputed with
      | true => left; rw [parse_dispute_latched m r t0 hty hm hd]
      | false =>
        by_cases hop : t0.operation_type = OperationType.Deposit
        · cases ha : t0.amount with
          | none =>
            right; left
            refine ⟨t0, { t0 with under_dispute := true, already_disputed := true },
              rfl, rfl, rfl, fun _ => rfl, Or.inl ?_⟩
            rw [parse_dispute_fresh_deposit_noamount m r t0 hty hm hd hop ha]
          | some x =>
            right; left
            refine ⟨t0, { t0 with under_dispute := true, already_disputed := true },
              rfl, rfl, rfl, fun _ => rfl, Or.inr ?_⟩
            refine ⟨fun a => a.dispute x, x, Or.inr (Or.inr (Or.inl rfl)), ha, ?_⟩
            rw [parse_dispute_fresh_deposit m r t0 x hty hm hd hop ha]
        · right; left
          refine ⟨t0, { t0 with under_dispute := true, already_disputed := true },
            rfl, rfl, rfl, fun _ => rfl, Or.inl ?_⟩
          rw [parse_dispute_fresh_nondeposit m r t0 hty hm hd hop]
  | Chargeback =>
    cases hm : m.transactions r.tx with
    | none => left; rw [parse_chargeback_missing m r hty hm]
    | some t0 =>
      cases hd : t0.under_dispute with
      | false => left; rw [parse_chargeback_not_disputed m r t0 hty hm hd]
      | true =>
        cases ha : t0.amount with
        | none => left; rw [parse_chargeback_active_noamount m r t0 hty hm hd ha]
        | some x =>
          by_cases hop : t0.operation_type = OperationType.Deposit
          · right; left
            refine ⟨t0, { t0 with under_dispute := false }, rfl, rfl, rfl,
              fun h => h, Or.inr ?_⟩
            refine ⟨fun a => a.chargeback x, x,
              Or.inr (Or.inr (Or.inr (Or.inr (Or.inl rfl)))), ha, ?_⟩
            rw [parse_chargeback_active_deposit m r t0 x hty hm hd ha hop]
          · by_cases hop2 : t0.operation_type = OperationType.Withdrawal
            · right; left
              refine ⟨t0, { t0 with under_dispute := false }, rfl, rfl, rfl,
                fun h => h, Or.inr ?_⟩
              refine ⟨fun a => a.chargeback_withdrawal x, x,
                Or.inr (Or.inr (Or.inr (Or.inr (Or.inr rfl)))), ha, ?_⟩
              rw [parse_chargeback_active_withdrawal m r t0 x hty hm hd ha hop2]
            · right; left
              refine ⟨t0, { t0 with under_dispute := false }, rfl, rfl, rfl,
                fun h => h, Or.inl ?_⟩
              rw [parse_chargeback_active_otherop m r t0 x hty hm hd ha hop hop2]
  | Resolve =>
    cases hm : m.transactions r.tx with
    | none => left; rw [parse_resolve_missing m r hty hm]
    | some t0 =>
      cases hd : t0.under_dispute with
      | false => left; rw [parse_resolve_not_disputed m r t0 hty hm hd]
      | true =>
        cases ha : t0.amount with
        | none =>
          right; left
          refine ⟨t0, { t0 with under_dispute := false }, rfl, rfl, rfl,
            fun h => h, Or.inl ?_⟩
          rw [parse_resolve_active_noamount m r t0 hty hm hd ha]
        | some x =>
          right; left
          refine ⟨t0, { t0 with under_dispute := false }, rfl, rfl, rfl,
            fun h => h, Or.inr ?_⟩
          refine ⟨fun a => a.resolve x, x,
            Or.inr (Or.inr (Or.inr (Or.inl rfl))), ha, ?_⟩
          rw [parse_resolve_active m r t0 x hty hm hd ha]

/-! ### Consequences of `OpOf` -/

theorem op_lock_mono (f : Account → Except Errors Unit × Account) (x : ℚ)
    (hf : OpOf f x) (a : Account) (h : a.locked = true) :
    ((f a).2).locked = true := by
  rcases hf with hf | hf | hf | hf | hf | hf <;> subst hf
  · rw [deposit_locked_field]; exact h
  · rw [withdrawal_locked_field]; exact h
  · rw [dispute_locked_field]; exact h
  · rw [resolve_locked_field]; exact h
  · exact chargeback_locked_mono a x h
  · rw [chargeback_withdrawal_locked_field]; exact h

theorem op_avail_nonneg (f : Account → Except Errors Unit × Account) (x : ℚ)
    (hf : OpOf f x) (hx : 0 ≤ x) (a : Account) (h0 : 0 ≤ a.available) :
    0 ≤ ((f a).2).available := by
  rcases hf with hf | hf | hf | hf | hf | hf <;> subst hf
  · exact deposit_avail_nonneg a x h0 hx
  · exact withdrawal_avail_nonneg a x h0
  · exact dispute_avail_nonneg a x h0
  · exact resolve_avail_nonneg a x h0 hx
  · rw [chargeback_available_eq]; exact h0
  · exact chargeback_withdrawal_avail_nonneg a x h0 hx

/-! ### Invariant preservation across one `parse_entry` step -/

theorem parse_latch_mono (m : TransactionManager) (r : Record) (tx : Nat)
    (t : TransactionRecord) (hl : m.transactions tx = some t)
    (hd : t.already_disputed = true) :
    ∃ t', (m.parse_entry r).2.transactions tx = some t' ∧
      t'.already_disputed = true := by
  rcases parse_entry_shape m r with h | ⟨t0, t', hm, -, -, himp, h2⟩ |
    ⟨x, f, hm, -, -, he⟩
  · rw [h]; exact ⟨t, hl, hd⟩
  · have htr : (m.parse_entry r).2.transactions =
        (m.set_transaction r.tx t').transactions := by
      rcases h2 with he | ⟨f, x, -, -, he⟩
      · rw [he]
      · rw [he]; rfl
    rw [htr, set_transaction_lookup]
    by_cases htx : tx = r.tx
    · subst htx
      rw [hl] at hm
      cases hm
      exact ⟨t', if_pos rfl ▸ rfl, himp hd⟩
    · rw [if_neg htx]; exact ⟨t, hl, hd⟩
  · rw [he, with_account_transactions, set_transaction_lookup]
    by_cases htx : tx = r.tx
    · subst htx; rw [hl] at hm; cases hm
    · rw [if_neg htx]; exact ⟨t, hl, hd⟩

theorem parse_lock_mono (m : TransactionManager) (r : Record) (c : Nat)
    (a : Account) (hl : m.accounts c = some a) (h : a.locked = true) :
    ∃ a', (m.parse_entry r).2.accounts c = some a' ∧ a'.locked = true := by
  rcases parse_entry_shape m r with hc | ⟨t0, t', hm, -, -, -, h2⟩ |
    ⟨x, f, hm, hx, hf, he⟩
  · rw [hc]; exact ⟨a, hl, h⟩
  · rcases h2 with he | ⟨f, x, hf, -, he⟩
    · rw [he, set_transaction_accounts]; exact ⟨a, hl, h⟩
    · rw [he, with_account_accounts, set_transaction_accounts]
      by_cases hck : c = r.client
      · subst hck
        rw [if_pos rfl, hl]
        exact ⟨_, rfl, op_lock_mono f x hf a h⟩
      · rw [if_neg hck]; exact ⟨a, hl, h⟩
  · rw [he, with_account_accounts, set_transaction_accounts]
    by_cases hck : c = r.client
    · subst hck
      rw [if_pos rfl, hl]
      exact ⟨_, rfl, op_lock_mono f x hf a h⟩
    · rw [if_neg hck]; exact ⟨a, hl, h⟩

/-- The joint reachability invariant behind the available-balance
claim: every account's `available` is non-negative and every registry
entry's amount is non-negative. -/
def Nonneg (m : TransactionManager) : Prop :=
  (∀ c a, m.accounts c = some a → 0 ≤ a.available) ∧
  (∀ tx t x, m.transactions tx = some t → t.amount = some x → 0 ≤ x)

theorem getD_avail_nonneg (m : TransactionManager) (c : Nat) (h : Nonneg m) :
    0 ≤ ((m.accounts c).getD (Account.new c)).available := by
  cases hl : m.accounts c with
  | none => simp [Account.new]
  | some a => simpa using h.1 c a hl

theorem parse_nonneg (m : TransactionManager) (r : Record) (h : Nonneg m) :
    Nonneg (m.parse_entry r).2 := by
  rcases parse_entry_shape m r with hc | ⟨t0, t', hm, hamt, -, -, h2⟩ |
    ⟨x, f, hm, hx, hf, he⟩
  · rw [hc]; exact h
  · have htr : ∀ tx1 t1 x1,
        (m.set_transaction r.tx t').transactions tx1 = some t1 →
        t1.amount = some x1 → 0 ≤ x1 := by
      intro tx1 t1 x1 h1 h2'
      rw [set_transaction_lookup] at h1
      by_cases htx : tx1 = r.tx
      · rw [if_pos htx] at h1
        cases h1
        exact h.2 r.tx t0 x1 hm (hamt ▸ h2')
      · rw [if_neg htx] at h1
        exact h.2 tx1 t1 x1 h1 h2'
    rcases h2 with he | ⟨f, x, hf, hax, he⟩
    · rw [he]
      exact ⟨fun c a hl => h.1 c a hl, htr⟩
    · rw [he]
      refine ⟨?_, htr⟩
      intro c a hl
      rw [with_account_accounts, set_transaction_accounts] at hl
      by_cases hck : c = r.client
      · rw [if_pos hck] at hl
        cases hl
        exact op_avail_nonneg f x hf (h.2 r.tx t0 x hm hax) _
          (getD_avail_nonneg m r.client h)
      · rw [if_neg hck] at hl
        exact h.1 c a hl
  · rw [he]
    constructor
    · intro c a hl
      rw [with_account_accounts, set_transaction_accounts] at hl
      by_cases hck : c = r.client
      · rw [if_pos hck] at hl
        cases hl
        exact op_avail_nonneg f x hf hx _ (getD_avail_nonneg m r.client h)
      · rw [if_neg hck] at hl
        exact h.1 c a hl
    · intro tx1 t1 x1 h1 h2'
      rw [with_account_transactions, set_transaction_lookup] at h1
      by_cases htx : tx1 = r.tx
      · rw [if_pos htx] at h1
        cases h1
        simp only [TransactionRecord.new] at h2'
        cases h2'
        exact hx
      · rw [if_neg htx] at h1
        exact h.2 tx1 t1 x1 h1 h2'

/-! ### Lifting a step-preserved predicate over a whole run -/

theorem runFrom_preserves (P : TransactionManager → Prop)
    (hstep : ∀ m r, P m → P (m.parse_entry r).2) (rs : List Record) :
    ∀ m, P m → P (m.runFrom rs) := by
  induction rs with
  | nil => intro m hm; exact hm
  | cons r rs ih =>
    intro m hm
    show P (TransactionManager.runFrom _ rs)
    exact ih _ (hstep m r hm)

/-! ### Lock-independence of the dispute-cycle Account operations -/

theorem dispute_lock_indep (a : Account) (x : ℚ) (b : Bool) :
    (Account.dispute { a with locked := b } x).1 = (a.dispute x).1 ∧
    ((Account.dispute { a with locked := b } x).2).available =
      ((a.dispute x).2).available ∧
    ((Account.dispute { a with locked := b } x).2).held =
      ((a.dispute x).2).held := by
  simp only [Account.dispute, checked_sub, checked_add]
  split_ifs <;> simp

set_option maxHeartbeats 1000000 in
theorem resolve_lock_indep (a : Account) (x : ℚ) (b : Bool) :
    (Account.resolve { a with locked := b } x).1 = (a.resolve x).1 ∧
    ((Account.resolve { a with locked := b } x).2).available =
      ((a.resolve x).2).available ∧
    ((Account.resolve { a with locked := b } x).2).held =
      ((a.resolve x).2).held := by
  by_cases h1 : |a.available + x| ≤ DMAX
  · by_cases h2 : |a.held - x| ≤ DMAX <;>
      simp [Account.resolve, checked_add, checked_sub, h1, h2]
  · simp [Account.resolve, checked_add, h1]

set_option maxHeartbeats 1000000 in
theorem chargeback_lock_indep (a : Account) (x : ℚ) (b : Bool) :
    (Account.chargeback { a with locked := b } x).1 = (a.chargeback x).1 ∧
    ((Account.chargeback { a with locked := b } x).2).available =
      ((a.chargeback x).2).available ∧
    ((Account.chargeback { a with locked := b } x).2).held =
      ((a.chargeback x).2).held := by
  by_cases h1 : |a.held - x| ≤ DMAX <;>
    simp [Account.chargeback, checked_sub, h1]

set_option maxHeartbeats 1000000 in
theorem chargeback_withdrawal_lock_indep (a : Account) (x : ℚ) (b : Bool) :
    (Account.chargeback_withdrawal { a with locked := b } x).1 =
      (a.chargeback_withdrawal x).1 ∧
    ((Account.chargeback_withdrawal { a with locked := b } x).2).available =
      ((a.chargeback_withdrawal x).2).available ∧
    ((Account.chargeback_withdrawal { a with locked := b } x).2).held =
      ((a.chargeback_withdrawal x).2).held := by
  by_cases h1 : |a.available + x| ≤ DMAX <;>
    simp [Account.chargeback_withdrawal, checked_add, h1]

/-! ### Error classification for the Account operations -/

theorem deposit_error_shape (a : Account) (x : ℚ) (e : Errors) (b : Account)
    (h : a.deposit x = (Except.error e, b)) :
    e = Errors.AccountLocked a.client_id ∨ e = Errors.FundsOverflow a.client_id := by
  unfold Account.deposit at h
  split at h
  · rw [Prod.mk.injEq] at h
    exact Or.inl (Except.error.injEq _ _ ▸ h.1.symm)
  · cases hc : checked_add a.available x
    · rw [hc] at h
      rw [Prod.mk.injEq] at h
      exact Or.inr (Except.error.injEq _ _ ▸ h.1.symm)
    · rw [hc] at h; simp at h

theorem withdrawal_error_shape (a : Account) (x : ℚ) (e : Errors) (b : Account)
    (h : a.withdrawal x = (Except.error e, b)) :
    e = Errors.AccountLocked a.client_id ∨
      e = Errors.InsuficientFunds a.client_id ∨
      e = Errors.FundsOverflow a.client_id := by
  unfold Account.withdrawal at h
  split at h
  · rw [Prod.mk.injEq] at h
    exact Or.inl (Except.error.injEq _ _ ▸ h.1.symm)
  · split at h
    · cases hc : checked_sub a.available x
      · rw [hc] at h
        rw [Prod.mk.injEq] at h
        exact Or.inr (Or.inr (Except.error.injEq _ _ ▸ h.1.symm))
      · rw [hc] at h; simp at h
    · rw [Prod.mk.injEq] at h
      exact Or.inr (Or.inl (Except.error.injEq _ _ ▸ h.1.symm))

theorem chargeback_error_shape (a : Account) (x : ℚ) (e : Errors) (b : Account)
    (h : a.chargeback x = (Except.error e, b)) :
    e = Errors.FundsOverflow a.client_id := by
  unfold Account.chargeback at h
  cases hc : checked_sub a.held x
  · rw [hc] at h
    rw [Prod.mk.injEq] at h
    exact Except.error.injEq _ _ ▸ h.1.symm
  · rw [hc] at h; simp at h

/-! ### The claims -/

/-- Claim C8: a Deposit or Withdrawal record fails with
`TransactionIdAlreadyUsed` when its tx id is already registered
(whatever client either record names), with `MissingAmount` when the
amount is absent, and with `NegativeAmount` when the amount is
negative; in each case the manager — accounts and registry alike — is
returned unchanged. -/
theorem claim_C8 (m : TransactionManager) (r : Record)
    (ht : r.type = OperationType.Deposit ∨ r.type = OperationType.Withdrawal) :
    ((m.transactions r.tx).isSome = true →
      m.parse_entry r =
        (Except.error (Errors.TransactionIdAlreadyUsed r.tx r.type), m)) ∧
    (m.transactions r.tx = none → r.amount = none →
      m.parse_entry r = (Except.error Errors.MissingAmount, m)) ∧
    (∀ x, m.transactions r.tx = none → r.amount = some x → x < 0 →
      m.parse_entry r = (Except.error Errors.NegativeAmount, m)) :=
  ⟨fun hm => parse_dw_duplicate m r ht hm,
   fun hm ha => parse_dw_missing_amount m r ht hm ha,
   fun x hm ha hx => parse_dw_negative_amount m r x ht hm ha hx⟩

theorem claim_C8_witness :
    (run [Record.new OperationType.Deposit 1 1 (some 2)]).parse_entry
        (Record.new OperationType.Deposit 2 1 (some 1)) =
      (Except.error (Errors.TransactionIdAlreadyUsed 1 OperationType.Deposit),
        run [Record.new OperationType.Deposit 1 1 (some 2)]) ∧
    (run [Record.new OperationType.Deposit 1 1 (some 2)]).parse_entry
        (Record.new OperationType.Withdrawal 1 3 none) =
      (Except.error Errors.MissingAmount,
        run [Record.new OperationType.Deposit 1 1 (some 2)]) ∧
    (run [Record.new OperationType.Deposit 1 1 (some 2)]).parse_entry
        (Record.new OperationType.Deposit 1 4 (some (-1))) =
      (Except.error Errors.NegativeAmount,
        run [Record.new OperationType.Deposit 1 1 (some 2)]) :=
  ⟨(claim_C8 _ _ (Or.inl rfl)).1 (by decide),
   (claim_C8 _ _ (Or.inr rfl)).2.1 (by decide) rfl,
   (claim_C8 _ _ (Or.inl rfl)).2.2 (-1) (by decide) rfl (by decide)⟩

/-- Claim C7 (counterexample): the claim also asserts that a Dispute
record naming a not-under-dispute transaction is a silent no-op, but a
Dispute naming a registered, never-disputed (hence not-under-dispute)
Deposit is exactly the accepting case: it returns success yet moves
the deposited amount from `available` to `held` and rewrites the
registry entry, so the state does change. -/
theorem claim_C7_counterexample :
    (run [Record.new OperationType.Deposit 1 1 (some 5)]).transactions 1 =
      some { operation_type := OperationType.Deposit, amount := some 5,
             under_dispute := false, already_disputed := false } ∧
    ((run [Record.new OperationType.Deposit 1 1 (some 5)]).parse_entry
        (Record.new OperationType.Dispute 1 1 none)).1 = Except.ok () ∧
    ((run [Record.new OperationType.Deposit 1 1 (some 5)]).parse_entry
        (Record.new OperationType.Dispute 1 1 none)).2.accounts 1 =
      some { client_id := 1, available := 0, held := 5, locked := false } ∧
    (run [Record.new OperationType.Deposit 1 1 (some 5)]).accounts 1 =
      some { client_id := 1, available := 5, held := 0, locked := false } := by
  refine ⟨?_, ?_, ?_, ?_⟩ <;> with_unfolding_all rfl

/-- Claim C7 (amended): a Resolve naming a registered transaction that
is not under dispute fails with `ResolveOnNonDisputeOperation`; a
Resolve naming an unregistered tx id is a silent no-op; a Dispute
naming an unregistered or already-disputed transaction is a silent
no-op; a Chargeback naming an unregistered or not-under-dispute
transaction is a silent no-op.  In every one of these cases the
manager is returned unchanged. -/
theorem claim_C7 (m : TransactionManager) (r : Record) :
    (r.type = OperationType.Resolve →
      (∀ t, m.transactions r.tx = some t → t.under_dispute = false →
        m.parse_entry r = (Except.error Errors.ResolveOnNonDisputeOperation, m)) ∧
      (m.transactions r.tx = none → m.parse_entry r = (Except.ok (), m))) ∧
    (r.type = OperationType.Dispute →
      (m.transactions r.tx = none → m.parse_entry r = (Except.ok (), m)) ∧
      (∀ t, m.transactions r.tx = some t → t.already_disputed = true →
        m.parse_entry r = (Except.ok (), m))) ∧
    (r.type = OperationType.Chargeback →
      (m.transactions r.tx = none → m.parse_entry r = (Except.ok (), m)) ∧
      (∀ t, m.transactions r.tx = some t → t.under_dispute = false →
        m.parse_entry r = (Except.ok (), m))) :=
  ⟨fun ht => ⟨fun t hm hd => parse_resolve_not_disputed m r t ht hm hd,
    fun hm => parse_resolve_missing m r ht hm⟩,
   fun ht => ⟨fun hm => parse_dispute_missing m r ht hm,
    fun t hm hd => parse_dispute_latched m r t ht hm hd⟩,
   fun ht => ⟨fun hm => parse_chargeback_missing m r ht hm,
    fun t hm hd => parse_chargeback_not_disputed m r t ht hm hd⟩⟩

theorem claim_C7_witness :
    (run [Record.new OperationType.Deposit 1 1 (some 1),
        Record.new OperationType.Withdrawal 1 2 (some (1 / 2))]).parse_entry
        (Record.new OperationType.Resolve 1 2 none) =
      (Except.error Errors.ResolveOnNonDisputeOperation,
        run [Record.new OperationType.Deposit 1 1 (some 1),
          Record.new OperationType.Withdrawal 1 2 (some (1 / 2))]) ∧
    (run [Record.new OperationType.Deposit 1 1 (some 1)]).parse_entry
        (Record.new OperationType.Resolve 1 9 none) =
      (Except.ok (), run [Record.new OperationType.Deposit 1 1 (some 1)]) ∧
    (run [Record.new OperationType.Deposit 1 1 (some 1)]).parse_entry
        (Record.new OperationType.Dispute 1 9 none) =
      (Except.ok (), run [Record.new OperationType.Deposit 1 1 (some 1)]) ∧
    (run [Record.new OperationType.Deposit 1 1 (some 1)]).parse_entry
        (Record.new OperationType.Chargeback 1 1 none) =
      (Except.ok (), run [Record.new OperationType.Deposit 1 1 (some 1)]) :=
  ⟨((claim_C7 _ _).1 rfl).1
      { operation_type := OperationType.Withdrawal, amount := some (1 / 2),
        under_dispute := false, already_disputed := false }
      (by with_unfolding_all rfl) rfl,
   ((claim_C7 _ _).1 rfl).2 (by with_unfolding_all rfl),
   ((claim_C7 _ _).2.1 rfl).1 (by with_unfolding_all rfl),
   ((claim_C7 _ _).2.2 rfl).2
      { operation_type := OperationType.Deposit, amount := some 1,
        under_dispute := false, already_disputed := false }
      (by with_unfolding_all rfl) rfl⟩

/-- Claim C5: once the `already_disputed` latch of a registered
transaction is set, it stays set across any further record sequence,
and every Dispute record naming that tx id returns success while
leaving the whole manager (registry and accounts) unchanged. -/
theorem claim_C5 (m : TransactionManager) (tx : Nat) (t : TransactionRecord)
    (hl : m.transactions tx = some t) (hd : t.already_disputed = true) :
    (∀ rs, ∃ t', (m.runFrom rs).transactions tx = some t' ∧
      t'.already_disputed = true) ∧
    (∀ r, r.type = OperationType.Dispute → r.tx = tx →
      m.parse_entry r = (Except.ok (), m)) := by
  constructor
  · intro rs
    refine runFrom_preserves
      (fun mm => ∃ t', mm.transactions tx = some t' ∧ t'.already_disputed = true)
      ?_ rs m ⟨t, hl, hd⟩
    rintro mm r ⟨t', h1, h2⟩
    exact parse_latch_mono mm r tx t' h1 h2
  · intro r htype htx
    exact parse_dispute_latched m r t htype (by rw [htx]; exact hl) hd

theorem claim_C5_witness :
    (∃ t', ((run [Record.new OperationType.Deposit 1 1 (some 10),
        Record.new OperationType.Dispute 1 1 none]).runFrom
          [Record.new OperationType.Chargeback 1 1 none,
            Record.new OperationType.Dispute 1 1 none]).transactions 1 =
        some t' ∧ t'.already_disputed = true) ∧
    (run [Record.new OperationType.Deposit 1 1 (some 10),
        Record.new OperationType.Dispute 1 1 none]).parse_entry
        (Record.new OperationType.Dispute 1 1 none) =
      (Except.ok (),
        run [Record.new OperationType.Deposit 1 1 (some 10),
          Record.new OperationType.Dispute 1 1 none]) :=
  ⟨(claim_C5 _ 1
      { operation_type := OperationType.Deposit, amount := some 10,
        under_dispute := true, already_disputed := true }
      (by with_unfolding_all rfl) rfl).1
      [Record.new OperationType.Chargeback 1 1 none,
        Record.new OperationType.Dispute 1 1 none],
   (claim_C5 _ 1
      { operation_type := OperationType.Deposit, amount := some 10,
        under_dispute := true, already_disputed := true }
      (by with_unfolding_all rfl) rfl).2
      (Record.new OperationType.Dispute 1 1 none) rfl rfl⟩

/-- Claim C4: a Chargeback record naming an under-dispute transaction
routes by the entry's recorded operation type — a Deposit entry goes
to `Account.chargeback` and a Withdrawal entry to
`Account.chargeback_withdrawal` (in both cases after clearing
`under_dispute`); `Account.chargeback` checked-subtracts the amount
from `held` and locks exactly on success, an overflow error leaving
the account unmutated (hence still unlocked if it was unlocked);
`Account.chargeback_withdrawal` checked-adds the amount back to
`available` and never changes the lock flag. -/
theorem claim_C4 (m : TransactionManager) (r : Record) (t : TransactionRecord)
    (x : ℚ) (ht : r.type = OperationType.Chargeback)
    (hm : m.transactions r.tx = some t) (hd : t.under_dispute = true)
    (ha : t.amount = some x) :
    (t.operation_type = OperationType.Deposit →
      m.parse_entry r =
        (m.set_transaction r.tx { t with under_dispute := false }).with_account
          r.client (fun a => a.chargeback x)) ∧
    (t.operation_type = OperationType.Withdrawal →
      m.parse_entry r =
        (m.set_transaction r.tx { t with under_dispute := false }).with_account
          r.client (fun a => a.chargeback_withdrawal x)) ∧
    (∀ (a b : Account), a.chargeback x = (Except.ok (), b) →
      b = { a with held := a.held - x, locked := true }) ∧
    (∀ (a : Account) (e : Errors) (b : Account),
      a.chargeback x = (Except.error e, b) →
      e = Errors.FundsOverflow a.client_id ∧ b = a) ∧
    (∀ (a b : Account), a.chargeback_withdrawal x = (Except.ok (), b) →
      b = { a with available := a.available + x }) ∧
    (∀ (a : Account), ((a.chargeback_withdrawal x).2).locked = a.locked) :=
  ⟨fun hop => parse_chargeback_active_deposit m r t x ht hm hd ha hop,
   fun hop => parse_chargeback_active_withdrawal m r t x ht hm hd ha hop,
   fun a b h => chargeback_ok_state a x b h,
   fun a e b h => ⟨chargeback_error_shape a x e b h, chargeback_error_state a x e b h⟩,
   fun a b h => chargeback_withdrawal_ok_state a x b h,
   fun a => chargeback_withdrawal_locked_field a x⟩

theorem claim_C4_witness :
    (run [Record.new OperationType.Deposit 1 1 (some 12),
        Record.new OperationType.Dispute 1 1 none]).parse_entry
        (Record.new OperationType.Chargeback 1 1 none) =
      ((run [Record.new OperationType.Deposit 1 1 (some 12),
          Record.new OperationType.Dispute 1 1 none]).set_transaction 1
          { operation_type := OperationType.Deposit, amount := some 12,
            under_dispute := false, already_disputed := true }).with_account 1
        (fun a => a.chargeback 12) ∧
    (run [Record.new OperationType.Deposit 1 2 (some 7),
        Record.new OperationType.Withdrawal 1 3 (some 7),
        Record.new OperationType.Dispute 1 3 none]).parse_entry
        (Record.new OperationType.Chargeback 1 3 none) =
      ((run [Record.new OperationType.Deposit 1 2 (some 7),
          Record.new OperationType.Withdrawal 1 3 (some 7),
          Record.new OperationType.Dispute 1 3 none]).set_transaction 3
          { operation_type := OperationType.Withdrawal, amount := some 7,
            under_dispute := false, already_disputed := true }).with_account 1
        (fun a => a.chargeback_withdrawal 7) :=
  ⟨(claim_C4 _ _
      { operation_type := OperationType.Deposit, amount := some 12,
        under_dispute := true, already_disputed := true } 12 rfl
      (by with_unfolding_all rfl) rfl rfl).1 rfl,
   (claim_C4 _ _
      { operation_type := OperationType.Withdrawal, amount := some 7,
        under_dispute := true, already_disputed := true } 7 rfl
      (by with_unfolding_all rfl) rfl rfl).2.1 rfl⟩

/-- Claim C10: for a Dispute naming a registered transaction whose
latch is clear, `parse_entry` sets `under_dispute` and
`already_disputed` in the registry before calling `Account.dispute`,
so the new flags are in place whatever that call returns (in
particular after an `InsuficientFunds` failure); and for a Deposit
entry with a recorded amount, the record's outcome is exactly the
outcome of `Account.dispute` on the target account. -/
theorem claim_C10 (m : TransactionManager) (r : Record) (t : TransactionRecord)
    (ht : r.type = OperationType.Dispute) (hm : m.transactions r.tx = some t)
    (hd : t.already_disputed = false) :
    (m.parse_entry r).2.transactions r.tx =
      some { t with under_dispute := true, already_disputed := true } ∧
    (∀ x, t.operation_type = OperationType.Deposit → t.amount = some x →
      (m.parse_entry r).1 =
        (((m.accounts r.client).getD (Account.new r.client)).dispute x).1) := by
  constructor
  · by_cases hop : t.operation_type = OperationType.Deposit
    · cases ha : t.amount with
      | none =>
        rw [parse_dispute_fresh_deposit_noamount m r t ht hm hd hop ha]
        rw [set_transaction_lookup]
        simp [ha]
      | some x =>
        rw [parse_dispute_fresh_deposit m r t x ht hm hd hop ha]
        rw [with_account_transactions, set_transaction_lookup]
        simp [ha]
    · rw [parse_dispute_fresh_nondeposit m r t ht hm hd hop]
      rw [set_transaction_lookup]
      exact if_pos rfl
  · intro x hop ha
    rw [parse_dispute_fresh_deposit m r t x ht hm hd hop ha]
    rfl

theorem claim_C10_witness :
    ((run [Record.new OperationType.Deposit 1 1 (some 100),
        Record.new OperationType.Withdrawal 1 2 (some 100)]).parse_entry
        (Record.new OperationType.Dispute 1 1 none)).2.transactions 1 =
      some { operation_type := OperationType.Deposit, amount := some 100,
             under_dispute := true, already_disputed := true } ∧
    ((run [Record.new OperationType.Deposit 1 1 (some 100),
        Record.new OperationType.Withdrawal 1 2 (some 100)]).parse_entry
        (Record.new OperationType.Dispute 1 1 none)).1 =
      Except.error (Errors.InsuficientFunds 1) :=
  ⟨(claim_C10 _ _
      { operation_type := OperationType.Deposit, amount := some 100,
        under_dispute := false, already_disputed := false } rfl
      (by with_unfolding_all rfl) rfl).1,
   by with_unfolding_all rfl⟩

theorem with_account_snd (m : TransactionManager) (c : Nat)
    (f : Account → Except Errors Unit × Account) :
    (m.with_account c f).2 =
      m.set_account c (f ((m.accounts c).getD (Account.new c))).2 := rfl

theorem set_account_transactions (m : TransactionManager) (c : Nat) (a : Account) :
    (m.set_account c a).transactions = m.transactions := rfl

theorem set_account_lookup (m : TransactionManager) (c k : Nat) (a : Account) :
    (m.set_account c a).accounts k = if k = c then some a else m.accounts k := rfl

/-- Claim C9: a successful `Account.dispute` followed by a successful
`Account.resolve` at the same amount restores `available` and `held`
to exactly their pre-dispute values (the embedded decimal arithmetic
is exact); correspondingly, at the ledger level, a Dispute accepted
for a registered Deposit entry followed by a successful Resolve
naming the same client and tx id restores that client's account to
its pre-dispute `available` and `held`. -/
theorem claim_C9 :
    (∀ (a : Account) (x : ℚ) (a1 a2 : Account),
      a.dispute x = (Except.ok (), a1) → a1.resolve x = (Except.ok (), a2) →
      a2.available = a.available ∧ a2.held = a.held) ∧
    (∀ (m : TransactionManager) (c tx : Nat) (t : TransactionRecord) (x : ℚ)
      (am1 am2 : Option ℚ),
      m.transactions tx = some t →
      t.operation_type = OperationType.Deposit →
      t.already_disputed = false → t.amount = some x →
      (m.parse_entry (Record.mk OperationType.Dispute c tx am1)).1 =
        Except.ok () →
      ((m.parse_entry (Record.mk OperationType.Dispute c tx am1)).2.parse_entry
          (Record.mk OperationType.Resolve c tx am2)).1 = Except.ok () →
      ∃ a2,
        ((m.parse_entry (Record.mk OperationType.Dispute c tx am1)).2.parse_entry
            (Record.mk OperationType.Resolve c tx am2)).2.accounts c = some a2 ∧
        a2.available = ((m.accounts c).getD (Account.new c)).available ∧
        a2.held = ((m.accounts c).getD (Account.new c)).held) := by
  have hacct : ∀ (a : Account) (x : ℚ) (a1 a2 : Account),
      a.dispute x = (Except.ok (), a1) → a1.resolve x = (Except.ok (), a2) →
      a2.available = a.available ∧ a2.held = a.held := by
    intro a x a1 a2 h1 h2
    obtain ⟨hb1, -⟩ := dispute_ok_state a x a1 h1
    have hb2 := resolve_ok_state a1 x a2 h2
    subst hb1
    subst hb2
    constructor
    · show a.available - x + x = a.available
      exact sub_add_cancel a.available x
    · show a.held + x - x = a.held
      exact add_sub_cancel_right a.held x
  refine ⟨hacct, ?_⟩
  intro m c tx t x am1 am2 hm hop hd ha h1 h2
  have hpd := parse_dispute_fresh_deposit m (Record.mk OperationType.Dispute c tx am1)
    t x rfl hm hd hop ha
  rw [hpd] at h1 h2 ⊢
  rw [with_account_fst] at h1
  simp only [set_transaction_accounts] at h1
  have hpair1 : ((m.accounts c).getD (Account.new c)).dispute x =
      (Except.ok (), (((m.accounts c).getD (Account.new c)).dispute x).2) := by
    rw [← h1]
  have hres := parse_resolve_active
    (((m.set_transaction tx
        { t with under_dispute := true, already_disputed := true }).with_account c
        (fun a => a.dispute x)).2)
    (Record.mk OperationType.Resolve c tx am2)
    { t with under_dispute := true, already_disputed := true } x rfl
    (by rw [with_account_snd, set_account_transactions, set_transaction_lookup]
        exact if_pos rfl)
    rfl ha
  rw [hres] at h2 ⊢
  rw [with_account_fst] at h2
  simp only [with_account_snd, set_account_lookup, set_transaction_accounts,
    if_pos, Option.getD_some] at h2 ⊢
  refine ⟨_, rfl, ?_⟩
  exact hacct _ x _ _ hpair1 (by rw [← h2])

theorem claim_C9_witness :
    ((Account.mk 1 7 0 false).dispute 7 = (Except.ok (), Account.mk 1 0 7 false) ∧
      (Account.mk 1 0 7 false).resolve 7 = (Except.ok (), Account.mk 1 7 0 false) ∧
      (Account.mk 1 7 0 false).available = (Account.mk 1 7 0 false).available ∧
      (Account.mk 1 7 0 false).held = (Account.mk 1 7 0 false).held) ∧
    (∃ a2,
      (((run [Record.new OperationType.Deposit 1 9 (some 7)]).parse_entry
          (Record.mk OperationType.Dispute 1 9 none)).2.parse_entry
          (Record.mk OperationType.Resolve 1 9 none)).2.accounts 1 = some a2 ∧
      a2.available =
        (((run [Record.new OperationType.Deposit 1 9 (some 7)]).accounts 1).getD
          (Account.new 1)).available ∧
      a2.held =
        (((run [Record.new OperationType.Deposit 1 9 (some 7)]).accounts 1).getD
          (Account.new 1)).held) :=
  ⟨⟨by with_unfolding_all rfl, by with_unfolding_all rfl,
    claim_C9.1 (Account.mk 1 7 0 false) 7 (Account.mk 1 0 7 false)
      (Account.mk 1 7 0 false) (by with_unfolding_all rfl)
      (by with_unfolding_all rfl)⟩,
   claim_C9.2 (run [Record.new OperationType.Deposit 1 9 (some 7)]) 1 9
      { operation_type := OperationType.Deposit, amount := some 7,
        under_dispute := false, already_disputed := false } 7 none none
      (by with_unfolding_all rfl) rfl rfl rfl
      (by with_unfolding_all rfl) (by with_unfolding_all rfl)⟩

/-- Claim C6: an account's `locked` flag, once true, stays true across
any further record sequence; `deposit` and `withdrawal` on a locked
account fail with `AccountLocked` and leave the account unchanged;
and `dispute`, `resolve`, `chargeback`, `chargeback_withdrawal` are
not gated by the lock: their outcome and their effect on `available`
and `held` are the same whatever the lock flag holds. -/
theorem claim_C6 :
    (∀ (m : TransactionManager) (c : Nat) (a : Account) (rs : List Record),
      m.accounts c = some a → a.locked = true →
      ∃ a', (m.runFrom rs).accounts c = some a' ∧ a'.locked = true) ∧
    (∀ (a : Account) (x : ℚ), a.locked = true →
      a.deposit x = (Except.error (Errors.AccountLocked a.client_id), a) ∧
      a.withdrawal x = (Except.error (Errors.AccountLocked a.client_id), a)) ∧
    (∀ (a : Account) (x : ℚ) (b : Bool),
      ((Account.dispute { a with locked := b } x).1 = (a.dispute x).1 ∧
        ((Account.dispute { a with locked := b } x).2).available =
          ((a.dispute x).2).available ∧
        ((Account.dispute { a with locked := b } x).2).held =
          ((a.dispute x).2).held) ∧
      ((Account.resolve { a with locked := b } x).1 = (a.resolve x).1 ∧
        ((Account.resolve { a with locked := b } x).2).available =
          ((a.resolve x).2).available ∧
        ((Account.resolve { a with locked := b } x).2).held =
          ((a.resolve x).2).held) ∧
      ((Account.chargeback { a with locked := b } x).1 = (a.chargeback x).1 ∧
        ((Account.chargeback { a with locked := b } x).2).available =
          ((a.chargeback x).2).available ∧
        ((Account.chargeback { a with locked := b } x).2).held =
          ((a.chargeback x).2).held) ∧
      ((Account.chargeback_withdrawal { a with locked := b } x).1 =
          (a.chargeback_withdrawal x).1 ∧
        ((Account.chargeback_withdrawal { a with locked := b } x).2).available =
          ((a.chargeback_withdrawal x).2).available ∧
        ((Account.chargeback_withdrawal { a with locked := b } x).2).held =
          ((a.chargeback_withdrawal x).2).held)) := by
  refine ⟨?_, ?_, ?_⟩
  · intro m c a rs hl h
    refine runFrom_preserves
      (fun mm => ∃ a', mm.accounts c = some a' ∧ a'.locked = true) ?_ rs m
      ⟨a, hl, h⟩
    rintro mm r ⟨a', h1, h2⟩
    exact parse_lock_mono mm r c a' h1 h2
  · intro a x h
    exact ⟨deposit_locked a x h, withdrawal_locked a x h⟩
  · intro a x b
    exact ⟨dispute_lock_indep a x b, resolve_lock_indep a x b,
      chargeback_lock_indep a x b, chargeback_withdrawal_lock_indep a x b⟩

theorem claim_C6_witness :
    (∃ a', ((run [Record.new OperationType.Deposit 1 1 (some 12),
        Record.new OperationType.Dispute 1 1 none,
        Record.new OperationType.Chargeback 1 1 none]).runFrom
          [Record.new OperationType.Deposit 1 5 (some 3)]).accounts 1 =
        some a' ∧ a'.locked = true) ∧
    ((Account.mk 1 10 0 true).deposit 3 =
        (Except.error (Errors.AccountLocked 1), Account.mk 1 10 0 true) ∧
      (Account.mk 1 10 0 true).withdrawal 3 =
        (Except.error (Errors.AccountLocked 1), Account.mk 1 10 0 true)) ∧
    (Account.dispute { Account.mk 1 5 5 false with locked := true } 2).1 =
      (Account.dispute (Account.mk 1 5 5 false) 2).1 :=
  ⟨claim_C6.1 (run [Record.new OperationType.Deposit 1 1 (some 12),
        Record.new OperationType.Dispute 1 1 none,
        Record.new OperationType.Chargeback 1 1 none]) 1
      (Account.mk 1 0 0 true) [Record.new OperationType.Deposit 1 5 (some 3)]
      (by with_unfolding_all rfl) rfl,
   claim_C6.2.1 (Account.mk 1 10 0 true) 3 rfl,
   (claim_C6.2.2 (Account.mk 1 5 5 false) 2 true).1.1⟩

/-- Claim C2 (counterexample): `Account.dispute` is not atomic.  With
`available = 1` and `held` at the representation maximum, `dispute 1`
passes the funds check, subtracts 1 from `available`, and only then
fails the `held` overflow check: the call returns an error yet leaves
`available` changed (1 became 0). -/
theorem claim_C2_counterexample :
    (Account.dispute (Account.mk 1 1 DMAX false) 1).1 =
      Except.error (Errors.FundsOverflow 1) ∧
    (Account.dispute (Account.mk 1 1 DMAX false) 1).2 ≠
      Account.mk 1 1 DMAX false ∧
    ((Account.dispute (Account.mk 1 1 DMAX false) 1).2).available = 0 := by
  refine ⟨?_, ?_, ?_⟩
  · with_unfolding_all rfl
  · with_unfolding_all decide
  · with_unfolding_all rfl

/-- Claim C2 (amended): `deposit`, `withdrawal`, `chargeback` and
`chargeback_withdrawal` are atomic — an error returns the account
exactly as it was.  `dispute` validates `available ≥ amount` before
mutating, and a failure of the validation or of its first checked leg
leaves the account unchanged, but a failure of the second (`held`)
leg leaves `available` already reduced by the amount (`held` is never
changed on an error); symmetrically a `resolve` error leaves `held`
unchanged but may leave `available` already increased by the
amount. -/
theorem claim_C2 :
    (∀ (a : Account) (x : ℚ) (e : Errors) (b : Account),
      a.deposit x = (Except.error e, b) → b = a) ∧
    (∀ (a : Account) (x : ℚ) (e : Errors) (b : Account),
      a.withdrawal x = (Except.error e, b) → b = a) ∧
    (∀ (a : Account) (x : ℚ) (e : Errors) (b : Account),
      a.chargeback x = (Except.error e, b) → b = a) ∧
    (∀ (a : Account) (x : ℚ) (e : Errors) (b : Account),
      a.chargeback_withdrawal x = (Except.error e, b) → b = a) ∧
    (∀ (a : Account) (x : ℚ), a.available < x →
      a.dispute x = (Except.error (Errors.InsuficientFunds a.client_id), a)) ∧
    (∀ (a : Account) (x : ℚ) (e : Errors) (b : Account),
      a.dispute x = (Except.error e, b) →
      b.held = a.held ∧
        (b = a ∨ b = { a with available := a.available - x })) ∧
    (∀ (a : Account) (x : ℚ) (e : Errors) (b : Account),
      a.resolve x = (Except.error e, b) →
      b.held = a.held ∧
        (b = a ∨ b = { a with available := a.available + x })) := by
  refine ⟨deposit_error_state, withdrawal_error_state, chargeback_error_state,
    chargeback_withdrawal_error_state, ?_, ?_, ?_⟩
  · intro a x hlt
    unfold Account.dispute
    rw [if_neg (not_le.mpr hlt)]
  · intro a x e b h
    rcases dispute_error_state a x e b h with hb | ⟨hb, -⟩
    · exact ⟨by rw [hb], Or.inl hb⟩
    · exact ⟨by rw [hb], Or.inr hb⟩
  · intro a x e b h
    rcases resolve_error_state a x e b h with hb | hb
    · exact ⟨by rw [hb], Or.inl hb⟩
    · exact ⟨by rw [hb], Or.inr hb⟩

theorem claim_C2_witness :
    (Account.mk 1 0 DMAX false).held = (Account.mk 1 1 DMAX false).held ∧
      (Account.mk 1 0 DMAX false = Account.mk 1 1 DMAX false ∨
        Account.mk 1 0 DMAX false =
          { Account.mk 1 1 DMAX false with available := 1 - 1 }) :=
  claim_C2.2.2.2.2.2.1 (Account.mk 1 1 DMAX false) 1 (Errors.FundsOverflow 1)
    (Account.mk 1 0 DMAX false) (by with_unfolding_all rfl)

/-- Claim C3 (counterexample): a Deposit whose tx id was fresh can
fail (here with `AccountLocked`, the account having been locked by an
earlier chargeback) and still leave a registry entry for its tx id:
the entry is inserted before `Account.deposit` runs and is not rolled
back. -/
theorem claim_C3_counterexample :
    ((run [Record.new OperationType.Deposit 1 1 (some 12),
        Record.new OperationType.Dispute 1 1 none,
        Record.new OperationType.Chargeback 1 1 none]).parse_entry
        (Record.new OperationType.Deposit 1 2 (some 5))).1 =
      Except.error (Errors.AccountLocked 1) ∧
    (run [Record.new OperationType.Deposit 1 1 (some 12),
      Record.new OperationType.Dispute 1 1 none,
      Record.new OperationType.Chargeback 1 1 none]).transactions 2 = none ∧
    ((run [Record.new OperationType.Deposit 1 1 (some 12),
        Record.new OperationType.Dispute 1 1 none,
        Record.new OperationType.Chargeback 1 1 none]).parse_entry
        (Record.new OperationType.Deposit 1 2 (some 5))).2.transactions 2 =
      some (TransactionRecord.new OperationType.Deposit (some 5)) := by
  refine ⟨?_, ?_, ?_⟩ <;> with_unfolding_all rfl

/-- Claim C3 (amended): for a Deposit or Withdrawal record whose tx
id is not yet registered, a registry entry is created if and only if
the record's amount is present and non-negative; the validation
errors `MissingAmount` and `NegativeAmount` leave the whole manager
unchanged (and `TransactionIdAlreadyUsed` cannot occur for a fresh tx
id), but when the entry was created and `parse_entry` still returned
an error, that error came from the account operation run after
registration (`AccountLocked`, `InsuficientFunds` or `FundsOverflow`)
and the entry remains registered. -/
theorem claim_C3 (m : TransactionManager) (r : Record)
    (ht : r.type = OperationType.Deposit ∨ r.type = OperationType.Withdrawal)
    (hm : m.transactions r.tx = none) :
    ((m.parse_entry r).2.transactions r.tx =
        some (TransactionRecord.new r.type r.amount) ↔
      ∃ x, r.amount = some x ∧ 0 ≤ x) ∧
    (∀ e, (m.parse_entry r).1 = Except.error e →
      (e = Errors.MissingAmount ∨ e = Errors.NegativeAmount) →
      (m.parse_entry r).2 = m) ∧
    (∀ e, (m.parse_entry r).1 = Except.error e →
      (m.parse_entry r).2.transactions r.tx =
        some (TransactionRecord.new r.type r.amount) →
      (e = Errors.AccountLocked
          (((m.accounts r.client).getD (Account.new r.client)).client_id) ∨
        e = Errors.InsuficientFunds
          (((m.accounts r.client).getD (Account.new r.client)).client_id) ∨
        e = Errors.FundsOverflow
          (((m.accounts r.client).getD (Account.new r.client)).client_id))) := by
  cases ha : r.amount with
  | none =>
    rw [parse_dw_missing_amount m r ht hm ha]
    refine ⟨?_, fun e _ _ => rfl, ?_⟩
    · simp [hm, ha]
    · intro e _ hreg
      rw [hm] at hreg
      exact absurd hreg (by simp)
  | some x =>
    by_cases hx : x < 0
    · rw [parse_dw_negative_amount m r x ht hm ha hx]
      refine ⟨?_, fun e _ _ => rfl, ?_⟩
      · simp only [hm, ha]
        constructor
        · intro h; exact absurd h (by simp)
        · rintro ⟨x', hx', hx0⟩
          cases hx'
          exact absurd hx0 (not_le.mpr hx)
      · intro e _ hreg
        rw [hm] at hreg
        exact absurd hreg (by simp)
    · rcases ht with ht | ht
      · rw [parse_deposit_fresh m r x ht hm ha hx]
        refine ⟨?_, ?_, ?_⟩
        · rw [with_account_transactions, set_transaction_lookup, if_pos rfl]
          simp [ha, ht]
          exact not_lt.mp hx
        · intro e he hcase
          rw [with_account_fst] at he
          simp only [set_transaction_accounts] at he
          have hpair : ((m.accounts r.client).getD (Account.new r.client)).deposit x =
              (Except.error e,
                (((m.accounts r.client).getD (Account.new r.client)).deposit x).2) := by
            rw [← he]
          rcases deposit_error_shape _ x e _ hpair with h | h <;>
            rcases hcase with hc | hc <;> rw [hc] at h <;> exact absurd h (by simp)
        · intro e he _
          rw [with_account_fst] at he
          simp only [set_transaction_accounts] at he
          have hpair : ((m.accounts r.client).getD (Account.new r.client)).deposit x =
              (Except.error e,
                (((m.accounts r.client).getD (Account.new r.client)).deposit x).2) := by
            rw [← he]
          rcases deposit_error_shape _ x e _ hpair with h | h
          · exact Or.inl h
          · exact Or.inr (Or.inr h)
      · rw [parse_withdrawal_fresh m r x ht hm ha hx]
        refine ⟨?_, ?_, ?_⟩
        · rw [with_account_transactions, set_transaction_lookup, if_pos rfl]
          simp [ha, ht]
          exact not_lt.mp hx
        · intro e he hcase
          rw [with_account_fst] at he
          simp only [set_transaction_accounts] at he
          have hpair : ((m.accounts r.client).getD (Account.new r.client)).withdrawal x =
              (Except.error e,
                (((m.accounts r.client).getD (Account.new r.client)).withdrawal x).2) := by
            rw [← he]
          rcases withdrawal_error_shape _ x e _ hpair with h | h | h <;>
            rcases hcase with hc | hc <;> rw [hc] at h <;> exact absurd h (by simp)
        · intro e he _
          rw [with_account_fst] at he
          simp only [set_transaction_accounts] at he
          have hpair : ((m.accounts r.client).getD (Account.new r.client)).withdrawal x =
              (Except.error e,
                (((m.accounts r.client).getD (Account.new r.client)).withdrawal x).2) := by
            rw [← he]
          exact withdrawal_error_shape _ x e _ hpair

theorem claim_C3_witness :
    ((run [Record.new OperationType.Deposit 1 1 (some 12),
        Record.new OperationType.Dispute 1 1 none,
        Record.new OperationType.Chargeback 1 1 none]).parse_entry
        (Record.new OperationType.Deposit 1 2 (some 5))).2.transactions 2 =
      some (TransactionRecord.new OperationType.Deposit (some 5)) :=
  (claim_C3 (run [Record.new OperationType.Deposit 1 1 (some 12),
      Record.new OperationType.Dispute 1 1 none,
      Record.new OperationType.Chargeback 1 1 none])
    (Record.new OperationType.Deposit 1 2 (some 5)) (Or.inl rfl)
    (by with_unfolding_all rfl)).1.mpr ⟨5, rfl, by with_unfolding_all decide⟩

/-- Claim C1 (counterexample): a successful call can leave a negative
`held` balance.  Deposit 100, withdraw 100, then Dispute the deposit:
the dispute's account operation fails (`InsuficientFunds`) but the
registry flags are already set, so the following Chargeback is
accepted — it returns success, subtracts 100 from the zero `held`
balance, and leaves `held = -100` on a locked account. -/
theorem claim_C1_counterexample :
    ((run [Record.new OperationType.Deposit 1 1 (some 100),
        Record.new OperationType.Withdrawal 1 2 (some 100),
        Record.new OperationType.Dispute 1 1 none]).parse_entry
        (Record.new OperationType.Chargeback 1 1 none)).1 = Except.ok () ∧
    ((run [Record.new OperationType.Deposit 1 1 (some 100),
        Record.new OperationType.Withdrawal 1 2 (some 100),
        Record.new OperationType.Dispute 1 1 none]).parse_entry
        (Record.new OperationType.Chargeback 1 1 none)).2.accounts 1 =
      some (Account.mk 1 0 (-100) true) ∧
    ¬(0 ≤ (-100 : ℚ)) := by
  refine ⟨?_, ?_, ?_⟩
  · with_unfolding_all rfl
  · with_unfolding_all rfl
  · with_unfolding_all decide

/-- Claim C1 (amended): for every record sequence processed from a
fresh manager, every account's `available` balance is non-negative
after every record (`deposit`, `withdrawal` and `dispute` check
before subtracting, and only non-negative amounts are ever
registered); the corresponding guarantee for `held` fails, since
`chargeback` and `resolve` subtract from `held` without a check. -/
theorem claim_C1 (records : List Record) (c : Nat) (a : Account)
    (h : (run records).accounts c = some a) : 0 ≤ a.available := by
  have hN : Nonneg (run records) := by
    refine runFrom_preserves Nonneg (fun mm r hh => parse_nonneg mm r hh) records
      TransactionManager.new ⟨?_, ?_⟩
    · intro c' a' h'
      exact Option.noConfusion h'
    · intro tx t x h' _
      exact Option.noConfusion h'
  exact hN.1 c a h

theorem claim_C1_witness :
    (run [Record.new OperationType.Deposit 1 1 (some 3),
      Record.new OperationType.Withdrawal 1 2 (some 1)]).accounts 1 =
      some (Account.mk 1 2 0 false) ∧
    0 ≤ (Account.mk 1 2 0 false).available :=
  ⟨by with_unfolding_all rfl,
   claim_C1 [Record.new OperationType.Deposit 1 1 (some 3),
      Record.new OperationType.Withdrawal 1 2 (some 1)] 1 (Account.mk 1 2 0 false)
    (by with_unfolding_all rfl)⟩
